import Mathlib

/-!
Shallow embedding of the SAC agent defined in `src/models.py` and the
training-step glue in `src/train.py`.

Conventions of the embedding:
* float tensors are modelled as exact numbers (`ℚ` where the code is pure
  arithmetic, `ℝ` where `log` / `exp` / `sqrt` appear); batches are `List`s;
* network parameter tensors are flattened to `List ℚ`, in the order
  `parameters()` yields them; the random initial draws of each network are
  inputs of the constructor (the randomness source made explicit);
* fallible Python code (attribute lookups that can raise `AttributeError`)
  is modelled with `Option`/`Except`;
* the forward semantics of the networks inside `calc_critic_loss` /
  `calc_actor_loss` are abstracted as function-valued fields (`SACNets`):
  those two methods only compose the callees, and the claims about them are
  dataflow claims that hold or fail for arbitrary networks.
-/

/-- `env.observation_space` of the gym environment: only `shape[0]` is read
(`models.py` lines 165, 218, 322). -/
structure ObservationSpace where
  shape0 : ℕ

/-- `env.action_space`. The code only ever reads the discrete count attribute
`n` (`models.py` lines 166, 219, 323); `n := none` models an action space
without that attribute (a continuous `Box`), on which the Python attribute
access raises. `extents` is modelled from the spec: the per-dimension extents
of a continuous action space (spec section 3, target-entropy sentence); no code
in `src/` ever reads it. -/
structure ActionSpace where
  n : Option ℕ
  extents : List ℝ

/-- The environment collaborator, as consumed at construction time. -/
structure Env where
  observation_space : ObservationSpace
  action_space : ActionSpace

/-- A `SoftQNetwork` (`models.py` lines 156-205): we keep the two size fields
the constructor computes, the flattened parameter list, and the
`requires_grad` flag shared by all of its parameters (the code always sets it
uniformly, `models.py` lines 73-77). -/
structure SoftQNetwork where
  state_space : ℕ
  action_space : ℕ
  params : List ℚ
  requires_grad : Bool

/-- `SoftQNetwork.__init__(env)`: reads `env.observation_space.shape[0]` and
`env.action_space.n`; the latter raises (hence `none`) when the action space
has no discrete count. The freshly drawn initial parameters are the `init`
argument; `requires_grad` is `true` for a freshly built `nn.Module`. -/
def SoftQNetwork.make (env : Env) (init : List ℚ) : Option SoftQNetwork :=
  (env.action_space.n).map (fun nA =>
    { state_space := env.observation_space.shape0
      action_space := nA
      params := init
      requires_grad := true })

/-- Size data of `Actor` / `DiscreteActor` (`models.py` lines 217-219 and
321-323): both variants read `env.observation_space.shape[0]` and
`env.action_space.n` identically, so one structure models either variant. -/
structure ActorNet where
  state_space : ℕ
  action_space : ℕ
  params : List ℚ

/-- `Actor.__init__(env)` / `DiscreteActor.__init__(env)`: both read
`env.action_space.n` (`models.py` lines 219 and 323), raising when absent. -/
def ActorNet.make (env : Env) (init : List ℚ) : Option ActorNet :=
  (env.action_space.n).map (fun nA =>
    { state_space := env.observation_space.shape0
      action_space := nA
      params := init })

/-- `models.py` lines 41-44: `target_entropy` is `-np.log(1.0 / n)` when no
explicit `tgt_ent` is passed, and `tgt_ent` itself otherwise. -/
noncomputable def targetEntropy (nA : ℕ) (tgt_ent : Option ℝ) : ℝ :=
  match tgt_ent with
  | none => -Real.log (1 / (nA : ℝ))
  | some t => t

/-- The state of a `SAC` agent (`models.py` lines 29-48). -/
structure SACState where
  discrete : Bool
  actor : ActorNet
  soft_q1 : SoftQNetwork
  soft_q2 : SoftQNetwork
  tgt_q1 : SoftQNetwork
  tgt_q2 : SoftQNetwork
  target_entropy : ℝ
  log_alpha : ℝ
  alpha : ℝ
  gamma : ℚ
  tau : ℚ

/-- `SAC.__init__(env, tgt_ent, gamma, tau, disc)` (`models.py` lines 29-48).
The five `List ℚ` arguments are the random initial parameter draws of the
actor, `soft_q1`, `soft_q2`, `tgt_q1` and `tgt_q2` in construction order.
Faithful detail: the body builds five fresh networks (each reading
`env.action_space.n`), sets `log_alpha = 0` and `alpha = exp(0)`, and does
NOT call `_freeze_tgt_networks` — the target networks keep their own
independent initial draws with `requires_grad = true` (`.eval()` on line
38-39 changes only train/eval mode, not gradients). -/
noncomputable def SAC.init (env : Env) (tgt_ent : Option ℝ) (gamma tau : ℚ)
    (disc : Bool) (actorInit q1Init q2Init t1Init t2Init : List ℚ) :
    Option SACState := do
  let actor ← ActorNet.make env actorInit
  let q1 ← SoftQNetwork.make env q1Init
  let q2 ← SoftQNetwork.make env q2Init
  let t1 ← SoftQNetwork.make env t1Init
  let t2 ← SoftQNetwork.make env t2Init
  let nA ← env.action_space.n
  some
    { discrete := disc
      actor := actor
      soft_q1 := q1
      soft_q2 := q2
      tgt_q1 := t1
      tgt_q2 := t2
      target_entropy := targetEntropy nA tgt_ent
      log_alpha := 0
      alpha := Real.exp 0
      gamma := gamma
      tau := tau }

/-- Elementwise in-place `target_param.data.copy_(param.data)` over
`zip(target.parameters(), source.parameters())`: pairs up to the shorter
list are overwritten with the source value; trailing target entries (if the
zip is ragged) are untouched, as `zip` stops at the shorter sequence. -/
def copyInto (t p : List ℚ) : List ℚ :=
  List.zipWith (fun _tv pv => pv) t p ++ t.drop p.length

/-- `SAC._freeze_tgt_networks` (`models.py` lines 59-77): copies the trained
critics into the targets verbatim and clears `requires_grad` on every target
parameter. Defined in the source but never called by `__init__` nor by any
code in `src/`. -/
def freezeTgtNetworks (s : SACState) : SACState :=
  { s with
    tgt_q1 := { s.tgt_q1 with
      params := copyInto s.tgt_q1.params s.soft_q1.params
      requires_grad := false }
    tgt_q2 := { s.tgt_q2 with
      params := copyInto s.tgt_q2.params s.soft_q2.params
      requires_grad := false } }

/-- The elementwise Polyak blend `target*(1 - tau) + param*tau` over a
`zip` of parameter lists (`models.py` lines 82-90). -/
def softCopyParams (τ : ℚ) (t p : List ℚ) : List ℚ :=
  List.zipWith (fun tv pv => tv * (1 - τ) + pv * τ) t p ++ t.drop p.length

/-- `SAC.soft_copy` (`models.py` lines 79-90): blends both target critics
toward the trained critics with coefficient `self.tau`. -/
def softCopy (s : SACState) : SACState :=
  { s with
    tgt_q1 := { s.tgt_q1 with
      params := softCopyParams s.tau s.tgt_q1.params s.soft_q1.params }
    tgt_q2 := { s.tgt_q2 with
      params := softCopyParams s.tau s.tgt_q2.params s.soft_q2.params } }

/-- Forward semantics of the networks as `calc_critic_loss` /
`calc_actor_loss` see them, per batch element (states and actions as single
numbers). `evalActor` is `self.actor.evaluate`: by `models.py` line 291
(continuous) and line 376 (discrete) its return tuple is
`(action, log_prob, ...)` — the sampled action FIRST, its log-probability
SECOND. Only the first two slots matter to the two loss methods. -/
structure SACNets where
  evalActor : ℚ → ℚ × ℚ
  tgt_q1 : ℚ → ℚ → ℚ
  tgt_q2 : ℚ → ℚ → ℚ
  soft_q1 : ℚ → ℚ → ℚ
  soft_q2 : ℚ → ℚ → ℚ
  alpha : ℚ
  gamma : ℚ

/-- The per-element critic target of `calc_critic_loss` (`models.py` lines
93-102), with the source's own unpacking order kept: line 95 is
`next_probs, next_actions, _, _, _ = self.actor.evaluate(next_states)`, so
`next_probs` receives the tuple's FIRST slot (the sampled action) and
`next_actions` its SECOND slot (the log-probability); `next_actions` is then
fed to the target critics and `next_probs` is multiplied by `alpha`. -/
def calcCriticTarget (N : SACNets) (reward next_state done : ℚ) : ℚ :=
  let advantage := N.evalActor next_state
  let next_probs := advantage.1
  let next_actions := advantage.2
  let next_q1 := N.tgt_q1 next_state next_actions
  let next_q2 := N.tgt_q2 next_state next_actions
  let min_q_next := min next_q1 next_q2 - N.alpha * next_probs
  reward + (1 - done) * N.gamma * min_q_next

/-- The critic target as the claim words it: `target_q = reward +
(1 - done) * gamma * (min(tgtQ1(s, a), tgtQ2(s, a)) - alpha * log_prob)`
where `a` is the sampled next action and `log_prob` its log-probability. -/
def specCriticTarget (N : SACNets) (reward next_state done : ℚ) : ℚ :=
  let next_action := (N.evalActor next_state).1
  let next_log_prob := (N.evalActor next_state).2
  let next_q1 := N.tgt_q1 next_state next_action
  let next_q2 := N.tgt_q2 next_state next_action
  reward + (1 - done) * N.gamma * (min next_q1 next_q2 - N.alpha * next_log_prob)

/-- Elementwise combination of three equally long batches. -/
def zip3With (f : ℚ → ℚ → ℚ → ℚ) : List ℚ → List ℚ → List ℚ → List ℚ
  | a :: as, b :: bs, c :: cs => f a b c :: zip3With f as bs cs
  | _, _, _ => []

/-- `F.mse_loss` with its default mean reduction. -/
def mseLoss (pred target : List ℚ) : ℚ :=
  let d := List.zipWith (fun p t => (p - t) ^ 2) pred target
  d.sum / d.length

/-- `.mean()` of a rational batch. -/
def listMeanQ (l : List ℚ) : ℚ := l.sum / l.length

/-- `SAC.calc_critic_loss` (`models.py` lines 92-108): the no-grad critic
target per batch element (see `calcCriticTarget`), then the MSE of each
trained critic's prediction on `(states, actions)` against that target. -/
def calcCriticLoss (N : SACNets)
    (states actions rewards next_states dones : List ℚ) : ℚ × ℚ :=
  let targets := zip3With (fun r ns d => calcCriticTarget N r ns d)
    rewards next_states dones
  let p_q1 := List.zipWith N.soft_q1 states actions
  let p_q2 := List.zipWith N.soft_q2 states actions
  (mseLoss p_q1 targets, mseLoss p_q2 targets)

/-- `calc_critic_loss` as the claim words it, built on `specCriticTarget`. -/
def specCriticLoss (N : SACNets)
    (states actions rewards next_states dones : List ℚ) : ℚ × ℚ :=
  let targets := zip3With (fun r ns d => specCriticTarget N r ns d)
    rewards next_states dones
  let p_q1 := List.zipWith N.soft_q1 states actions
  let p_q2 := List.zipWith N.soft_q2 states actions
  (mseLoss p_q1 targets, mseLoss p_q2 targets)

/-- `SAC.calc_actor_loss` (`models.py` lines 121-128), with the source kept
verbatim in three respects: line 123 unpacks `evaluate`'s
`(action, log_prob, ...)` tuple as `log_probs, actions, _, _, _` (swapped);
line 124 and line 125 BOTH evaluate `self.soft_q1` (never `soft_q2`); and
`evaluate` is called without `reparam=True`, so the discrete variant draws a
non-reparameterized sample. Returns `(policy_loss, log_probs)` where
`log_probs` is what the source binds under that name. -/
def calcActorLoss (N : SACNets) (states : List ℚ) : ℚ × List ℚ :=
  let evals := states.map N.evalActor
  let log_probs := evals.map Prod.fst
  let actions := evals.map Prod.snd
  let q1 := List.zipWith N.soft_q1 states actions
  let q2 := List.zipWith N.soft_q1 states actions
  let min_q := List.zipWith min q1 q2
  (listMeanQ (List.zipWith (fun lp mq => N.alpha * lp - mq) log_probs min_q),
    log_probs)

/-- The actor loss as the claim words it: sampled action to the critics,
log-probability to the entropy term, both trained critics `soft_q1` and
`soft_q2` evaluated, elementwise minimum, mean of `alpha*log_prob - min_Q`. -/
def specActorLoss (N : SACNets) (states : List ℚ) : ℚ :=
  let evals := states.map N.evalActor
  let actions := evals.map Prod.fst
  let log_probs := evals.map Prod.snd
  let q1 := List.zipWith N.soft_q1 states actions
  let q2 := List.zipWith N.soft_q2 states actions
  let min_q := List.zipWith min q1 q2
  listMeanQ (List.zipWith (fun lp mq => N.alpha * lp - mq) log_probs min_q)

/-- The attribute names bound in the class body of `SAC` (`models.py` lines
20-153): its methods. Instance attributes assigned in `__init__` (such as
`actor`, `soft_q1`, `alpha`) live on instances, not on the class object. -/
def sacClassAttrs : List String :=
  ["__init__", "get_action", "init_opt", "_freeze_tgt_networks", "soft_copy",
   "calc_critic_loss", "update_critics", "calc_actor_loss", "update_actor",
   "calc_entropy_tuning_loss", "update_entropy", "device"]

/-- Python attribute lookup on the class object `SAC`: succeeds exactly on
the names the class body defines, otherwise raises `AttributeError`. -/
def getattrSAC (attr : String) : Except String String :=
  if attr ∈ sacClassAttrs then Except.ok attr
  else Except.error ("AttributeError: type object SAC has no attribute " ++ attr)

/-- `SAC.update_actor` (`models.py` lines 130-134). After `zero_grad` and
`backward`, line 133 is `torch.nn.utils.clip_grad_norm_(SAC.actor.parameters(),
clip)`: an attribute lookup of `actor` on the CLASS object `SAC`, not on
`self`. The returned state (the optimizer step applied) is unreachable,
because that lookup always raises. -/
def updateActor (s : SACState) (_actorLoss : ℚ) (_clip : ℚ) :
    Except String SACState := do
  let _ ← getattrSAC ("actor")
  Except.ok s

/-- `.mean()` of a real batch. -/
noncomputable def listMean (l : List ℝ) : ℝ := l.sum / l.length

/-- The default learning rate of `init_opt` (`models.py` line 53): `3e-4`. -/
noncomputable def adamLr : ℝ := 3 / 10000

/-- PyTorch Adam's default epsilon, `1e-8`. -/
noncomputable def adamEps : ℝ := 1 / 100000000

/-- The first Adam step on a scalar with gradient `g`, from fresh optimizer
state: the bias-corrected moments after one step are `m = g` and `v = g*g`,
so the parameter moves by `-lr * g / (sqrt(g*g) + eps)`. This function
returns the (signed) amount subtracted from the parameter. -/
noncomputable def adamFirstStep (lr eps g : ℝ) : ℝ :=
  lr * (g / (Real.sqrt (g * g) + eps))

/-- The gradient of `SAC.calc_entropy_tuning_loss` (`models.py` lines
136-144) with respect to `log_alpha`: the loss is
`-(log_alpha * (log_probs.detach() + target_entropy)).mean()`, which is
linear in `log_alpha` with slope `-(mean(log_probs) + target_entropy)`. -/
noncomputable def entropyLossGrad (log_probs : List ℝ) (target_entropy : ℝ) : ℝ :=
  -(listMean log_probs + target_entropy)

/-- `SAC.update_entropy` (`models.py` lines 146-150): unconditionally zeroes
the gradient, backpropagates `alpha_loss`, takes one optimizer step on
`log_alpha` (here: the first Adam step with gradient `g`), and recomputes
`alpha = exp(log_alpha)`. There is no flag anywhere in the method or in
`__init__` that can turn this into a no-op. -/
noncomputable def updateEntropy (s : SACState) (g : ℝ) : SACState :=
  let la := s.log_alpha - adamFirstStep adamLr adamEps g
  { s with log_alpha := la, alpha := Real.exp la }

/-- Whether `reward.std()` is NaN: the unbiased (n-1 denominator) standard
deviation Torch computes is NaN exactly when fewer than two elements are
present. -/
def stdIsNaN (l : List ℝ) : Bool := l.length ≤ 1

/-- The unbiased sample variance `reward.std()**2` of a batch (division by
`n - 1`). Only its value on batches of length at least two is ever used with
meaning; shorter batches are routed through the NaN guard. -/
noncomputable def sampleVar (l : List ℝ) : ℝ :=
  ((l.map (fun r => (r - listMean l) ^ 2)).sum) / ((l.length : ℝ) - 1)

/-- `reward.std()`, the square root of the unbiased sample variance. -/
noncomputable def rewardStd (l : List ℝ) : ℝ := Real.sqrt (sampleVar l)

/-- `np.finfo(np.float32).eps`, the float32 machine epsilon `2^-23`. -/
noncomputable def float32Eps : ℝ := 1 / 8388608

/-- The reward-normalization step of `update_SAC` (`train.py` lines 29-31):
`if not math.isnan(reward.std()): reward = (reward - reward.mean()) /
(reward.std() + eps)`. A NaN standard deviation (batch shorter than two)
leaves the batch untouched; otherwise — including a zero standard
deviation — every reward is shifted by the mean and divided by the
eps-stabilized denominator. -/
noncomputable def normalizeRewards (l : List ℝ) : List ℝ :=
  if stdIsNaN l then l
  else l.map (fun r => (r - listMean l) / (rewardStd l + float32Eps))

/-- The default `log_interval` of `update_SAC` (`train.py` line 27). -/
def logInterval : ℕ := 100

/-- The telemetry phase of `update_SAC` (`train.py` lines 45-55): when
`step % log_interval == 0` it calls `writer.add_scalar(...)` with no check
that a writer exists — on `writer = None` (the `train` function's choice when
no `log_dir` is given, `train.py` lines 96-99) the attribute access raises
`AttributeError`. Off the interval nothing is emitted. Returns whether
metrics were emitted. -/
def logPhase (writer : Option Unit) (step : ℕ) : Except String Bool :=
  if step % logInterval = 0 then
    match writer with
    | none =>
        Except.error ("AttributeError: NoneType object has no attribute add_scalar")
    | some _ => Except.ok true
  else Except.ok false

/-- Modelled from the spec: the target-entropy formula of spec section 3 —
`-log(1/|A|)` for a discrete action space with `|A|` actions, the negative
product of per-dimension extents for a continuous one. No such two-branch
computation exists in `src/`; this definition exists only to be compared
with the code's `targetEntropy`. -/
noncomputable def specTargetEntropy (env : Env) (disc : Bool) : ℝ :=
  if disc then -Real.log (1 / ((env.action_space.n.getD 0 : ℕ) : ℝ))
  else -(env.action_space.extents.prod)

/-- A concrete environment exposing a discrete action count (CartPole-like:
4 observation dimensions, 2 actions) and — for the spec-side continuous
formula — a single action dimension of extent 4. -/
def egEnv : Env :=
  { observation_space := { shape0 := 4 }
    action_space := { n := some 2, extents := [4] } }

/-- A concrete environment whose action space exposes no discrete count
attribute `n` (a continuous Box). -/
def contEnv : Env :=
  { observation_space := { shape0 := 4 }
    action_space := { n := none, extents := [4] } }

/-- A concrete freshly initialized agent (the state `SAC.__init__` produces
on `egEnv` with `tgt_ent = 1`, single-parameter networks, and the default
hyperparameters). -/
noncomputable def egAgent : SACState :=
  { discrete := false
    actor := { state_space := 4, action_space := 2, params := [5] }
    soft_q1 := { state_space := 4, action_space := 2, params := [1]
                 requires_grad := true }
    soft_q2 := { state_space := 4, action_space := 2, params := [2]
                 requires_grad := true }
    tgt_q1 := { state_space := 4, action_space := 2, params := [3]
                requires_grad := true }
    tgt_q2 := { state_space := 4, action_space := 2, params := [4]
                requires_grad := true }
    target_entropy := 1
    log_alpha := 0
    alpha := Real.exp 0
    gamma := 99 / 100
    tau := 1 / 100 }

/-- Concrete network semantics that separate the tuple slots of
`evaluate`: on every state the sampled action is `2` and its log-probability
is `5`; both target critics and `soft_q1` return their action argument as
the Q value, while `soft_q2` returns `0`. -/
def bugNets : SACNets :=
  { evalActor := fun _ => (2, 5)
    tgt_q1 := fun _ a => a
    tgt_q2 := fun _ a => a
    soft_q1 := fun _ a => a
    soft_q2 := fun _ _ => 0
    alpha := 1
    gamma := 1 }

/-- C1: `calc_critic_loss` does not compute the claimed target. With
`evaluate` returning action `2` and log-probability `5`, target critics
`Q(s, a) = a`, `soft_q1(s, a) = a`, `soft_q2(s, a) = 0`, `alpha = gamma = 1`,
and the batch `states = [0]`, `actions = [1]`, `rewards = [0]`,
`next_states = [7]`, `done = [0]`: the code's unpacking (`models.py` line 95)
feeds the log-probability `5` to the target critics and multiplies `alpha` by
the sampled action `2`, giving target `3` and losses `(4, 9)`, while the
claimed computation gives target `-3` and losses `(16, 9)`. -/
theorem calcCriticLoss_swapped_eval :
    calcCriticLoss bugNets [0] [1] [0] [7] [0] = (4, 9)
      ∧ specCriticLoss bugNets [0] [1] [0] [7] [0] = (16, 9) := by
  constructor <;>
    norm_num [calcCriticLoss, specCriticLoss, calcCriticTarget, specCriticTarget,
      zip3With, mseLoss, bugNets]

/-- C2: `calc_actor_loss` does not compute the claimed loss. With the same
networks (`evaluate` returning action `2`, log-probability `5`;
`soft_q1(s, a) = a`; `soft_q2(s, a) = 0`; `alpha = 1`) and `states = [0]`:
the code (`models.py` lines 123-127) binds the action as `log_probs`, feeds
the log-probability to `soft_q1`, evaluates `soft_q1` twice instead of
`soft_q2`, and returns `1*2 - min(5, 5) = -3`; the claimed computation
returns `1*5 - min(2, 0) = 5`. -/
theorem calcActorLoss_swapped_eval :
    (calcActorLoss bugNets [0]).1 = -3 ∧ specActorLoss bugNets [0] = 5 := by
  constructor <;>
    norm_num [calcActorLoss, specActorLoss, listMeanQ, bugNets]

/-- C4: `update_actor` raises on every call, for any agent state, because
`models.py` line 133 looks up `actor` on the class object `SAC`, which has no
such attribute (only instances do); the gradient-clipped optimizer step is
never reached. -/
theorem updateActor_always_raises (s : SACState) (actorLoss clip : ℚ) :
    updateActor s actorLoss clip
      = Except.error ("AttributeError: type object SAC has no attribute actor") := by
  rfl

/-- C9: with no telemetry sink configured (`writer = None`), a training step
that reaches the emission interval raises `AttributeError` instead of
no-oping (`train.py` lines 45-55); off the interval nothing is emitted, so
emission indeed never happens on every step. -/
theorem logPhase_none_crashes :
    logPhase none 300
        = Except.error ("AttributeError: NoneType object has no attribute add_scalar")
      ∧ logPhase (some ()) 1 = Except.ok false := by
  exact ⟨rfl, rfl⟩

/-- The Polyak blend, read off elementwise: position `i` of
`softCopyParams τ t p` is `t[i]*(1-τ) + p[i]*τ` whenever both lists reach
position `i`. -/
theorem softCopyParams_getD (τ : ℚ) (t p : List ℚ) (i : ℕ)
    (ht : i < t.length) (hp : i < p.length) :
    (softCopyParams τ t p).getD i 0
      = t.getD i 0 * (1 - τ) + p.getD i 0 * τ := by
  induction t generalizing p i with
  | nil => simp at ht
  | cons a t ih =>
    cases p with
    | nil => simp at hp
    | cons b p =>
      have hstep : softCopyParams τ (a :: t) (b :: p)
          = (a * (1 - τ) + b * τ) :: softCopyParams τ t p := by
        simp [softCopyParams]
      cases i with
      | zero => simp [hstep]
      | succ n =>
        have ht' : n < t.length := by simpa using ht
        have hp' : n < p.length := by simpa using hp
        simpa [hstep] using ih p n ht' hp'

/-- C5: after `soft_copy`, every target parameter of both critic pairs is
the convex combination `(1 - tau)*old_target + tau*trained` (for the
agent's coefficient `tau ∈ (0, 1]`), and `tau = 1` yields the trained
parameter itself. -/
theorem softCopy_polyak (s : SACState) (h0 : 0 < s.tau) (h1 : s.tau ≤ 1)
    (i : ℕ) (h1t : i < s.tgt_q1.params.length)
    (h1p : i < s.soft_q1.params.length)
    (h2t : i < s.tgt_q2.params.length)
    (h2p : i < s.soft_q2.params.length) :
    ((softCopy s).tgt_q1.params.getD i 0
        = (1 - s.tau) * s.tgt_q1.params.getD i 0
          + s.tau * s.soft_q1.params.getD i 0)
      ∧ ((softCopy s).tgt_q2.params.getD i 0
        = (1 - s.tau) * s.tgt_q2.params.getD i 0
          + s.tau * s.soft_q2.params.getD i 0)
      ∧ (s.tau = 1 →
          (softCopy s).tgt_q1.params.getD i 0 = s.soft_q1.params.getD i 0
          ∧ (softCopy s).tgt_q2.params.getD i 0 = s.soft_q2.params.getD i 0) := by
  have e1 := softCopyParams_getD s.tau s.tgt_q1.params s.soft_q1.params i h1t h1p
  have e2 := softCopyParams_getD s.tau s.tgt_q2.params s.soft_q2.params i h2t h2p
  have g1 : (softCopy s).tgt_q1.params
      = softCopyParams s.tau s.tgt_q1.params s.soft_q1.params := rfl
  have g2 : (softCopy s).tgt_q2.params
      = softCopyParams s.tau s.tgt_q2.params s.soft_q2.params := rfl
  refine ⟨?_, ?_, fun hτ => ⟨?_, ?_⟩⟩
  · rw [g1, e1]; ring
  · rw [g2, e2]; ring
  · rw [g1, e1, hτ]; ring
  · rw [g2, e2, hτ]; ring

/-- Concrete run of `softCopy_polyak` on `egAgent` (`tau = 1/100`,
single-parameter critics). -/
theorem softCopy_polyak_witness :
    ((softCopy egAgent).tgt_q1.params.getD 0 0
        = (1 - egAgent.tau) * egAgent.tgt_q1.params.getD 0 0
          + egAgent.tau * egAgent.soft_q1.params.getD 0 0)
      ∧ ((softCopy egAgent).tgt_q2.params.getD 0 0
        = (1 - egAgent.tau) * egAgent.tgt_q2.params.getD 0 0
          + egAgent.tau * egAgent.soft_q2.params.getD 0 0)
      ∧ (egAgent.tau = 1 →
          (softCopy egAgent).tgt_q1.params.getD 0 0
              = egAgent.soft_q1.params.getD 0 0
          ∧ (softCopy egAgent).tgt_q2.params.getD 0 0
              = egAgent.soft_q2.params.getD 0 0) :=
  softCopy_polyak egAgent (by norm_num [egAgent]) (by norm_num [egAgent]) 0
    (by simp [egAgent]) (by simp [egAgent]) (by simp [egAgent])
    (by simp [egAgent])

/-- C3: immediately after `SAC.__init__` (which never calls
`_freeze_tgt_networks`), the target critics keep their own independent
initial parameter draws — here `[3]` and `[4]`, distinct from the trained
critics' `[1]` and `[2]` — and their parameters still have
`requires_grad = true`. -/
theorem sac_init_no_hard_copy :
    (SAC.init egEnv none (99/100) (1/100) false [5] [1] [2] [3] [4]).elim False
      (fun s => s.tgt_q1.params = [3] ∧ s.tgt_q2.params = [4]
        ∧ s.soft_q1.params = [1] ∧ s.soft_q2.params = [2]
        ∧ s.tgt_q1.params ≠ s.soft_q1.params
        ∧ s.tgt_q2.params ≠ s.soft_q2.params
        ∧ s.tgt_q1.requires_grad = true ∧ s.tgt_q2.requires_grad = true) := by
  refine ⟨rfl, rfl, rfl, rfl, by decide, by decide, rfl, rfl⟩

/-- C10: on an environment exposing a discrete action count `n`, every
network of the constructed agent — the actor (either variant) and all four
critics — has its action dimension equal to that `n`; on an environment
without the attribute, construction fails for the continuous variant just as
for the discrete one. -/
theorem sac_networks_sized_from_n (env envc : Env) (nA : ℕ)
    (h : env.action_space.n = some nA) (hc : envc.action_space.n = none)
    (tgt_ent : Option ℝ) (gamma tau : ℚ) (disc : Bool)
    (ai q1i q2i t1i t2i : List ℚ) :
    ((SAC.init env tgt_ent gamma tau disc ai q1i q2i t1i t2i).elim False
      (fun s => s.actor.action_space = nA ∧ s.soft_q1.action_space = nA
        ∧ s.soft_q2.action_space = nA ∧ s.tgt_q1.action_space = nA
        ∧ s.tgt_q2.action_space = nA))
      ∧ SAC.init envc tgt_ent gamma tau disc ai q1i q2i t1i t2i = none := by
  constructor
  · simp [SAC.init, ActorNet.make, SoftQNetwork.make, h]
  · simp [SAC.init, ActorNet.make, SoftQNetwork.make, hc]

/-- Concrete run of `sac_networks_sized_from_n`: CartPole-like `egEnv` has
`n = 2` and every network is sized 2; on `contEnv` (no `n` attribute)
construction of the continuous-actor agent fails. -/
theorem sac_networks_sized_from_n_witness :
    ((SAC.init egEnv none 1 1 false [] [] [] [] []).elim False
      (fun s => s.actor.action_space = 2 ∧ s.soft_q1.action_space = 2
        ∧ s.soft_q2.action_space = 2 ∧ s.tgt_q1.action_space = 2
        ∧ s.tgt_q2.action_space = 2))
      ∧ SAC.init contEnv none 1 1 false [] [] [] [] [] = none :=
  sac_networks_sized_from_n egEnv contEnv 2 rfl rfl none 1 1 false [] [] [] [] []

/-- C6, counterexample: the batch `[1, 1]` has zero standard deviation, the
normalization branch still runs (only a NaN standard deviation is guarded),
and it maps the batch to `[0, 0]` — the rewards are NOT left unchanged. -/
theorem normalizeRewards_constant_not_unchanged :
    normalizeRewards [1, 1] = [0, 0] ∧ normalizeRewards [1, 1] ≠ [1, 1] := by
  have hmean : listMean [1, 1] = 1 := by
    norm_num [listMean]
  have hvar : sampleVar [1, 1] = 0 := by
    norm_num [sampleVar, hmean]
  have hstd : rewardStd [1, 1] = 0 := by
    rw [rewardStd, hvar, Real.sqrt_zero]
  have h0 : normalizeRewards [1, 1] = [0, 0] := by
    simp [normalizeRewards, stdIsNaN, hmean, hstd]
  refine ⟨h0, ?_⟩
  rw [h0]
  intro hcontra
  have : (0 : ℝ) = 1 := by
    simpa using congrArg (fun l => l.getD 0 0) hcontra
  norm_num at this

/-- C6, as the code actually behaves: a batch of `n ≥ 2` identical rewards
has standard deviation `0` (not NaN), so the normalization branch runs with
the eps-stabilized denominator `0 + eps`: no division by zero occurs (the
denominator is nonzero) and no NaN is produced, and every reward is mapped
to `0`. -/
theorem normalizeRewards_constant_batch (c : ℝ) (n : ℕ) (h : 2 ≤ n) :
    normalizeRewards (List.replicate n c) = List.replicate n 0
      ∧ rewardStd (List.replicate n c) + float32Eps ≠ 0 := by
  have hn : ((n : ℝ)) ≠ 0 := by
    have : (0 : ℕ) < n := by omega
    exact_mod_cast Nat.pos_iff_ne_zero.mp this
  have hmean : listMean (List.replicate n c) = c := by
    rw [listMean, List.sum_replicate, List.length_replicate, nsmul_eq_mul]
    field_simp
  have hvar : sampleVar (List.replicate n c) = 0 := by
    rw [sampleVar, List.map_replicate, hmean]
    simp
  have hstd : rewardStd (List.replicate n c) = 0 := by
    rw [rewardStd, hvar, Real.sqrt_zero]
  have hnan : stdIsNaN (List.replicate n c) = false := by
    simp [stdIsNaN]
    omega
  constructor
  · rw [normalizeRewards]
    rw [hnan]
    simp only [Bool.false_eq_true, if_false, List.map_replicate]
    rw [hmean, hstd]
    norm_num [float32Eps]
  · rw [hstd]
    norm_num [float32Eps]

/-- Concrete run of `normalizeRewards_constant_batch` on the batch of two
rewards equal to `1`. -/
theorem normalizeRewards_constant_batch_witness :
    normalizeRewards (List.replicate 2 (1 : ℝ)) = List.replicate 2 0
      ∧ rewardStd (List.replicate 2 (1 : ℝ)) + float32Eps ≠ 0 :=
  normalizeRewards_constant_batch 1 2 (by norm_num)

/-- C7, counterexample: constructing the continuous-variant agent
(`disc = false`) on `egEnv` (2 discrete actions, one continuous extent of 4)
yields `target_entropy = -log(1/2) = log 2`, not the negative product of
per-dimension extents `-4` that the claim prescribes for a continuous action
space. -/
theorem targetEntropy_ignores_extents :
    (SAC.init egEnv none (99/100) (1/100) false [5] [1] [2] [3] [4]).elim False
      (fun s => s.target_entropy = Real.log 2
        ∧ s.target_entropy ≠ specTargetEntropy egEnv false) := by
  have hlog : targetEntropy 2 none = Real.log 2 := by
    show -Real.log (1 / ((2 : ℕ) : ℝ)) = Real.log 2
    rw [one_div, Real.log_inv, neg_neg]
    norm_num
  have hspec : specTargetEntropy egEnv false = -4 := by
    simp [specTargetEntropy, egEnv]
  have hne : Real.log 2 ≠ -4 := by
    have hpos := Real.log_pos (by norm_num : (1 : ℝ) < 2)
    intro hcontra
    rw [hcontra] at hpos
    norm_num at hpos
  refine ⟨hlog, ?_⟩
  show targetEntropy 2 none ≠ specTargetEntropy egEnv false
  rw [hlog, hspec]
  exact hne

/-- C7, as the code actually behaves: whenever no explicit target entropy is
supplied, the constructed agent's `target_entropy` is
`-log(1/env.action_space.n) = log n`, for the discrete and the continuous
variant alike; the action-space extents play no role. -/
theorem targetEntropy_always_from_n (env : Env) (nA : ℕ)
    (h : env.action_space.n = some nA) (gamma tau : ℚ) (disc : Bool)
    (ai q1i q2i t1i t2i : List ℚ) :
    (SAC.init env none gamma tau disc ai q1i q2i t1i t2i).elim False
      (fun s => s.target_entropy = Real.log (nA : ℝ)) := by
  simp [SAC.init, ActorNet.make, SoftQNetwork.make, h]
  show targetEntropy nA none = Real.log (nA : ℝ)
  rw [targetEntropy]
  rw [one_div, Real.log_inv, neg_neg]

/-- Concrete run of `targetEntropy_always_from_n` on `egEnv` with the
discrete variant. -/
theorem targetEntropy_always_from_n_witness :
    (SAC.init egEnv none 1 1 true [] [] [] [] []).elim False
      (fun s => s.target_entropy = Real.log ((2 : ℕ) : ℝ)) :=
  targetEntropy_always_from_n egEnv 2 rfl 1 1 true [] [] [] [] []

/-- C8, counterexample: a freshly built agent (with `tgt_ent = 1`, so
`target_entropy = 1`) starts with `alpha = exp(0) = 1`; its first
`update_entropy` call on the entropy-tuning loss of the log-probability
batch `[0]` changes `alpha` — there is no flag setting under which the
update is a no-op that keeps `alpha` at its initial value. -/
theorem updateEntropy_changes_alpha :
    (updateEntropy egAgent (entropyLossGrad [0] egAgent.target_entropy)).alpha
      ≠ egAgent.alpha := by
  have hg : entropyLossGrad [0] egAgent.target_entropy = -1 := by
    norm_num [entropyLossGrad, listMean, egAgent]
  have harg : ((-1 : ℝ) * (-1)) = 1 := by norm_num
  have hstep : adamFirstStep adamLr adamEps (-1)
      = (3 / 10000) * (-1 / (1 + 1 / 100000000)) := by
    rw [adamFirstStep, harg, Real.sqrt_one, adamLr, adamEps]
  rw [hg]
  show Real.exp (egAgent.log_alpha - adamFirstStep adamLr adamEps (-1))
      ≠ Real.exp 0
  rw [Ne, Real.exp_eq_exp]
  rw [hstep]
  show ¬((0 : ℝ) - 3 / 10000 * (-1 / (1 + 1 / 100000000)) = 0)
  norm_num

/-- C8, as the code actually behaves: `update_entropy` unconditionally
recomputes `alpha = exp(log_alpha)` after its optimizer step, and whenever
the loss gradient with respect to `log_alpha` is nonzero the step moves
`log_alpha` — the update is never a no-op on such a gradient. -/
theorem updateEntropy_unconditional (s : SACState) (g : ℝ) :
    (updateEntropy s g).alpha = Real.exp ((updateEntropy s g).log_alpha)
      ∧ (g ≠ 0 → (updateEntropy s g).log_alpha ≠ s.log_alpha) := by
  constructor
  · rfl
  · intro hg
    show s.log_alpha - adamFirstStep adamLr adamEps g ≠ s.log_alpha
    have habs : Real.sqrt (g * g) = |g| := Real.sqrt_mul_self_eq_abs g
    have hden : (0 : ℝ) < Real.sqrt (g * g) + adamEps := by
      rw [habs]
      show (0 : ℝ) < |g| + 1 / 100000000
      have := abs_nonneg g
      linarith
    have hquot : g / (Real.sqrt (g * g) + adamEps) ≠ 0 :=
      div_ne_zero hg (ne_of_gt hden)
    have hstep : adamFirstStep adamLr adamEps g ≠ 0 := by
      rw [adamFirstStep]
      refine mul_ne_zero ?_ hquot
      show (3 / 10000 : ℝ) ≠ 0
      norm_num
    intro hcontra
    exact hstep (sub_eq_self.mp hcontra)

/-- Concrete run of `updateEntropy_unconditional` on `egAgent` with
gradient `1`. -/
theorem updateEntropy_unconditional_witness :
    (updateEntropy egAgent 1).alpha
        = Real.exp ((updateEntropy egAgent 1).log_alpha)
      ∧ (updateEntropy egAgent 1).log_alpha ≠ egAgent.log_alpha :=
  ⟨(updateEntropy_unconditional egAgent 1).1,
    (updateEntropy_unconditional egAgent 1).2 (by norm_num)⟩

